import Mathlib

/-!
Shallow embedding of the Browser Session & Extraction Subsystem of the
SamoAI-InstagramTracker repository (TypeScript), together with proofs of the
specification's claims about it.

Modelling conventions:
* Puppeteer `Browser` and `Page` handles are plain naturals.
* The process-wide mutable registry (`globalBrowser`, `globalPages`) is an
  explicit `RegState` threaded through each operation.  A JS `Map` is an
  association list in insertion order; `Map.set` updates in place or appends.
* Engine calls (`puppeteer.launch`, `browser.close`, `browser.newPage`,
  `page.goto`, `page.click`, ...) are asynchronous and may reject; each
  operation takes an environment record holding the outcome of every engine
  call it performs, and failure is an `Except String` value, mirroring
  thrown JS `Error`s carrying a message.
* `console.log` output is modelled where a claim depends on it
  (`closeChromeBrowser`); elsewhere console logging is timing/diagnostic
  only and elided.
* Strings are treated as their lists of characters; JS `toLowerCase` is
  modelled by `Char.toLower` (ASCII case mapping, which covers every
  character the sanitizer's case-insensitive regexes mention).
-/

deriving instance DecidableEq for Except

/-! ## Registry state (chrome-actions.ts: globalBrowser / globalPages) -/

/-- Source: `let globalBrowser: Browser | null` and `let globalPages: Map<string, Page>`. -/
structure RegState where
  browser : Option Nat
  pages : List (String × Nat)
  deriving Repr, DecidableEq

/-- Source: `Map.prototype.set`: replace the value in place if the key is present,
otherwise append at the end (JS `Map` preserves insertion order). -/
def mapSet (k : String) (v : Nat) : List (String × Nat) → List (String × Nat)
  | [] => [(k, v)]
  | (k', v') :: t => if k' = k then (k, v) :: t else (k', v') :: mapSet k v t

/-- Source: `Map.prototype.delete`: remove the entry with the given key. -/
def mapDelete (k : String) : List (String × Nat) → List (String × Nat)
  | [] => []
  | (k', v') :: t => if k' = k then t else (k', v') :: mapDelete k t

/-- Source: `Map.prototype.get`, returning `none` for a missing key. -/
def mapGet (k : String) : List (String × Nat) → Option Nat
  | [] => none
  | (k', v') :: t => if k' = k then some v' else mapGet k t

/-- Source: `getChromePage(tabName?)`: with no (or an empty, hence falsy) tab name,
the first page in insertion order; otherwise `globalPages.get(tabName) || null`. -/
def getChromePage (tabName : Option String) (st : RegState) : Option Nat :=
  match tabName with
  | none => (st.pages.head?).map (fun p => p.2)
  | some n => if n = "" then (st.pages.head?).map (fun p => p.2) else mapGet n st.pages

/-- Source: `getChromePageNames()`: registered names in registration order. -/
def getChromePageNames (st : RegState) : List String :=
  st.pages.map (fun p => p.1)

/-- Outcome of a registry operation: the thrown-or-ok result and the state
of the global registry after the operation returns or throws. -/
structure RegResult where
  res : Except String Unit
  st : RegState
  deriving Repr, DecidableEq

def isErr {α : Type} (r : Except String α) : Bool :=
  match r with
  | .error _ => true
  | .ok _ => false

/-! ## launchChromeBrowser -/

/-- Outcomes of the engine calls `launchChromeBrowser` performs:
`globalBrowser.close()` (when a browser exists), `findChromeExecutable()`,
`puppeteer.launch(...)`, `browser.newPage()` and `newPage.goto(url)`. -/
structure LaunchEnv where
  closeRes : Except String Unit
  chromeFound : Bool
  launchRes : Except String Nat
  newPageRes : Except String Nat
  gotoRes : Except String Unit
  deriving Repr

/-- The part of `launchChromeBrowser` after the existing browser (if any)
has been closed: locate the executable, launch the engine, create and
register the initial tab, optionally navigate. -/
def launchAfterClose (env : LaunchEnv) (u tn : String) (st : RegState) :
    RegResult :=
  if ¬ env.chromeFound then
    ⟨.error "Chrome executable not found. Please make sure Google Chrome is installed.", st⟩
  else
    match env.launchRes with
    | .error e => ⟨.error e, st⟩
    | .ok b =>
      let st2 : RegState := ⟨some b, st.pages⟩
      match env.newPageRes with
      | .error e => ⟨.error e, st2⟩
      | .ok p =>
        let st3 : RegState := ⟨some b, mapSet tn p st2.pages⟩
        if u ≠ "" then
          match env.gotoRes with
          | .error e => ⟨.error e, st3⟩
          | .ok _ => ⟨.ok (), st3⟩
        else ⟨.ok (), st3⟩

/-- Source: `launchChromeBrowser(url = 'https://www.instagram.com/', tabName = 'default')`.
Every mutation of the registry happens exactly where the source performs it;
a thrown error is logged and rethrown by the `catch`, leaving the registry
as it was at the throw point. -/
def launchChromeBrowser (env : LaunchEnv) (url tabName : Option String)
    (st : RegState) : RegResult :=
  let u := url.getD "https://www.instagram.com/"
  let tn := tabName.getD "default"
  -- if (globalBrowser) { await globalBrowser.close(); globalBrowser = null; globalPages.clear(); }
  match st.browser with
  | some _ =>
    match env.closeRes with
    | .error e => ⟨.error e, st⟩
    | .ok _ => launchAfterClose env u tn ⟨none, []⟩
  | none => launchAfterClose env u tn st

/-! ## closeChromeBrowser -/

structure CloseEnv where
  closeRes : Except String Unit
  deriving Repr

/-- Result of `closeChromeBrowser`, with the `console.log` lines it prints
(the no-browser branch prints its notice to the console only). -/
structure CloseResult where
  res : Except String Unit
  st : RegState
  console : List String
  deriving Repr, DecidableEq

/-- Source: `closeChromeBrowser()`: closes and clears when a browser exists,
otherwise logs `'ℹNo browser instance was running'` and returns normally. -/
def closeChromeBrowser (env : CloseEnv) (st : RegState) : CloseResult :=
  match st.browser with
  | some _ =>
    match env.closeRes with
    | .error e => ⟨.error e, st, ["❌ Error closing browser: " ++ e]⟩
    | .ok _ => ⟨.ok (), ⟨none, []⟩, ["Chrome browser closed successfully"]⟩
  | none => ⟨.ok (), st, ["ℹNo browser instance was running"]⟩

/-! ## createNewTab -/

structure CreateTabEnv where
  newPageRes : Except String Nat
  gotoRes : Except String Unit
  deriving Repr

/-- Source: `createNewTab(tabName, url?)`: throws when no browser is launched or the
name is taken (both before any mutation); otherwise registers the new page
and optionally navigates it. -/
def createNewTab (env : CreateTabEnv) (tabName : String) (url : Option String)
    (st : RegState) : RegResult :=
  match st.browser with
  | none => ⟨.error "Browser not launched. Please launch browser first.", st⟩
  | some _ =>
    match mapGet tabName st.pages with
    | some _ =>
      ⟨.error ("Tab with name \"" ++ tabName ++ "\" already exists."), st⟩
    | none =>
      match env.newPageRes with
      | .error e => ⟨.error e, st⟩
      | .ok p =>
        let st2 : RegState := ⟨st.browser, mapSet tabName p st.pages⟩
        match url with
        | some u =>
          if u ≠ "" then
            match env.gotoRes with
            | .error e => ⟨.error e, st2⟩
            | .ok _ => ⟨.ok (), st2⟩
          else ⟨.ok (), st2⟩
        | none => ⟨.ok (), st2⟩

/-! ## switchToTab / closeTab -/

structure SwitchTabEnv where
  bringToFrontRes : Except String Unit
  deriving Repr

/-- Source: `switchToTab(tabName)`: throws `Tab "..." not found.` for an unknown name,
otherwise brings the page to the front; the registry is never mutated. -/
def switchToTab (env : SwitchTabEnv) (tabName : String) (st : RegState) : RegResult :=
  match mapGet tabName st.pages with
  | none => ⟨.error ("Tab \"" ++ tabName ++ "\" not found."), st⟩
  | some _ =>
    match env.bringToFrontRes with
    | .error e => ⟨.error e, st⟩
    | .ok _ => ⟨.ok (), st⟩

structure CloseTabEnv where
  pageCloseRes : Except String Unit
  deriving Repr

/-- Source: `closeTab(tabName)`: throws for an unknown name; `page.close()` precedes
the registry delete, so a failing engine close leaves the entry registered. -/
def closeTab (env : CloseTabEnv) (tabName : String) (st : RegState) : RegResult :=
  match mapGet tabName st.pages with
  | none => ⟨.error ("Tab \"" ++ tabName ++ "\" not found."), st⟩
  | some _ =>
    match env.pageCloseRes with
    | .error e => ⟨.error e, st⟩
    | .ok _ => ⟨.ok (), ⟨st.browser, mapDelete tabName st.pages⟩⟩

/-! ## Shared string helpers -/

/-- JS `hay.includes(needle)` on character lists: `needle` occurs contiguously. -/
def includesL (needle : List Char) : List Char → Bool
  | [] => needle.isEmpty
  | c :: t => needle.isPrefixOf (c :: t) || includesL needle t

/-- JS `String.prototype.includes`. -/
def strIncludes (hay needle : String) : Bool :=
  includesL needle.data hay.data

/-- JS truthiness of an optional string: `undefined` and `''` are falsy. -/
def jsTruthyStr (o : Option String) : Bool :=
  match o with
  | none => false
  | some s => !(s == "")

/-- Source: `` `[${this.agent.model.name}] ${text}` `` — the line pushed to the
reporting sink by `this.location.addSystemMessage`. -/
def sysMsg (name text : String) : String :=
  "[" ++ name ++ "] " ++ text

/-- The uniform `try { ... } catch (error) { addSystemMessage(errPre + msg) }`
boundary every action's `execute` wraps around its body: a normal body result
is reported as-is, a thrown error becomes a single error line; nothing is
rethrown. -/
def mkReport (name errPre : String) (r : Except String String) : List String :=
  match r with
  | .ok m => [m]
  | .error e => [sysMsg name (errPre ++ e)]

/-! ## BrowserClickAction (browser_click) -/

structure ClickEnv where
  /-- `page.$(selector)`: whether the selector matched (or a thrown error). -/
  selectorRes : Except String Bool
  /-- `page.click(selector, { delay: 50 })`. -/
  clickRes : Except String Unit
  deriving Repr

/-- Body of `BrowserClickAction.execute`'s `try` block.  The optional
`waitAfterMs` sleep is timing-only and has no observable effect here. -/
def browserClickBody (name : String) (env : ClickEnv) (selector : String)
    (waitAfterMs : Option Int) (tabName : Option String) (st : RegState) :
    Except String String := do
  match getChromePage tabName st with
  | none => throw "Browser not launched. Please run launch_browser first."
  | some _ =>
    let found ← env.selectorRes
    if !found then
      return sysMsg name ("Element not found for selector: " ++ selector)
    let _ ← env.clickRes
    let _ := waitAfterMs
    return sysMsg name ("Clicked element: " ++ selector)

def browserClickExecute (name : String) (env : ClickEnv) (selector : String)
    (waitAfterMs : Option Int) (tabName : Option String) (st : RegState) :
    List String :=
  mkReport name "Error clicking element: "
    (browserClickBody name env selector waitAfterMs tabName st)

/-! ## BrowserScrollAction (browser_scroll) -/

inductive ScrollDir where
  | down
  | up
  deriving Repr, DecidableEq

def scrollDirStr (d : ScrollDir) : String :=
  match d with
  | .down => "down"
  | .up => "up"

/-- Source: `(action.direction === 'up' ? -1 : 1) * (action.pixels ?? 1000)` — the
delta passed to `window.scrollBy` in the fixed-delta mode. -/
def scrollDelta (direction : Option ScrollDir) (pixels : Option Int) : Int :=
  (if direction = some .up then -1 else 1) * (pixels.getD 1000)

/-- One tick of the scroll-to-bottom loop: `window.scrollBy(0, 800)`, with
the browser clamping `scrollTop` to the maximum scroll extent
`scrollHeight - clientHeight`. -/
def scrollStep (maxScroll pos : Nat) : Nat :=
  min (pos + 800) maxScroll

/-- The loop's exit test, evaluated on the scroll position read *before* the
tick's `scrollBy`: `scrollTop + clientHeight >= scrollHeight - 10`. -/
def scrollDone (scrollHeight clientHeight pos : Nat) : Bool :=
  decide (scrollHeight - 10 ≤ pos + clientHeight)

/-- The `setInterval` loop inside `page.evaluate` for `toBottom: true`
(100 ms cadence, 800 px distance), on a page of fixed finite `scrollHeight`
and `clientHeight`, started at scroll position `pos`.  Returns the final
scroll position and the number of ticks executed.  Each tick scrolls first
and then tests the position read at the start of the tick. -/
def scrollToBottomLoop (scrollHeight clientHeight pos : Nat) : Nat × Nat :=
  let pos2 := scrollStep (scrollHeight - clientHeight) pos
  if scrollDone scrollHeight clientHeight pos then
    (pos2, 1)
  else
    let r := scrollToBottomLoop scrollHeight clientHeight pos2
    (r.1, r.2 + 1)
termination_by (scrollHeight - clientHeight) - pos
decreasing_by
  simp [scrollStep, scrollDone] at *
  omega

structure ScrollEnv where
  /-- `page.evaluate(...)` (either scroll mode). -/
  evalRes : Except String Unit
  deriving Repr

def browserScrollBody (name : String) (env : ScrollEnv)
    (direction : Option ScrollDir) (pixels : Option Int) (toBottom : Bool)
    (waitAfterMs : Option Int) (tabName : Option String) (st : RegState) :
    Except String String := do
  match getChromePage tabName st with
  | none => throw "Browser not launched. Please run launch_browser first."
  | some _ =>
    let _ ← env.evalRes
    let _ := waitAfterMs
    if toBottom then
      return sysMsg name "Scrolled page (toBottom: true)"
    else
      return sysMsg name ("Scrolled page (direction: " ++
        scrollDirStr (direction.getD .down) ++ ", pixels: " ++
        toString (pixels.getD 1000) ++ ")")

def browserScrollExecute (name : String) (env : ScrollEnv)
    (direction : Option ScrollDir) (pixels : Option Int) (toBottom : Bool)
    (waitAfterMs : Option Int) (tabName : Option String) (st : RegState) :
    List String :=
  mkReport name "Error scrolling page: "
    (browserScrollBody name env direction pixels toBottom waitAfterMs tabName st)

/-! ## BrowserWaitAction (browser_wait) -/

/-- Source: `const waitTime = action.milliseconds || 3000;` — JS `||` falls through
to the default on the falsy values `undefined` and `0`. -/
def jsWaitTime (milliseconds : Option Int) : Int :=
  match milliseconds with
  | none => 3000
  | some m => if m = 0 then 3000 else m

/-- Body of `BrowserWaitAction.execute`: a plain sleep; the reported line's
seconds figure (`waitTime / 1000`, JS float formatting) is elided. -/
def browserWaitBody (name : String) (milliseconds : Option Int) :
    Except String String :=
  .ok (sysMsg name ("Waited for " ++ toString (jsWaitTime milliseconds) ++ "ms"))

def browserWaitExecute (name : String) (milliseconds : Option Int) :
    List String :=
  mkReport name "Error during wait: " (browserWaitBody name milliseconds)

/-! ## BrowserNavigateAction (browser_navigate) -/

structure NavigateEnv where
  gotoRes : Except String Unit
  titleRes : Except String String
  deriving Repr

def browserNavigateBody (name : String) (env : NavigateEnv) (url : String)
    (tabName : Option String) (st : RegState) : Except String String := do
  match getChromePage tabName st with
  | none => throw "Browser not launched. Please run launch_browser first."
  | some _ =>
    let _ ← env.gotoRes
    let title ← env.titleRes
    return sysMsg name ("Successfully navigated to " ++ url ++
      ". Page title: " ++ title)

def browserNavigateExecute (name : String) (env : NavigateEnv) (url : String)
    (tabName : Option String) (st : RegState) : List String :=
  mkReport name ("Error navigating to " ++ url ++ ": ")
    (browserNavigateBody name env url tabName st)

/-! ## BrowserWaitForNavigationAction (browser_wait_for_navigation) -/

structure WaitNavEnv where
  /-- `page.waitForFunction(() => document.readyState === 'complete')`. -/
  waitFnRes : Except String Unit
  deriving Repr

def browserWaitNavBody (name : String) (env : WaitNavEnv)
    (strategy : Option String) (tabName : Option String) (st : RegState) :
    Except String String := do
  match getChromePage tabName st with
  | none => throw "Browser not launched. Please run launch_browser first."
  | some _ =>
    let _ ← env.waitFnRes
    -- fixed 3000 ms settle sleep, timing only
    let s := match strategy with
      | none => "all"
      | some t => if t = "" then "all" else t
    return sysMsg name ("Navigation completed with strategy: " ++ s)

def browserWaitNavExecute (name : String) (env : WaitNavEnv)
    (strategy : Option String) (tabName : Option String) (st : RegState) :
    List String :=
  mkReport name "Error waiting for navigation: "
    (browserWaitNavBody name env strategy tabName st)

/-! ## ViewScreenAction (view_screen) -/

/-- Source: `action.input?.includes('high') ? 1.0 : 0.8`, scaled by 100 as passed to
`page.screenshot` (`quality: quality * 100`). -/
def screenshotQuality (input : Option String) : Nat :=
  match input with
  | none => 80
  | some s => if strIncludes s "high" then 100 else 80

/-- Source: `action.input?.includes('small') ? 800 : 1200` — requested viewport width. -/
def screenshotWidth (input : Option String) : Nat :=
  match input with
  | none => 1200
  | some s => if strIncludes s "small" then 800 else 1200

structure ScreenshotEnv where
  setViewportRes : Except String Unit
  screenshotRes : Except String Unit
  /-- `updateLocationStateImage` (external image sink). -/
  saveRes : Except String Unit
  deriving Repr

def viewScreenBody (name : String) (env : ScreenshotEnv) (input : Option String)
    (tabName : Option String) (st : RegState) : Except String String := do
  match getChromePage tabName st with
  | none => throw "Browser not launched. Please run launch_browser first."
  | some _ =>
    let _ := screenshotQuality input
    let _ := screenshotWidth input
    let _ ← env.setViewportRes
    let _ ← env.screenshotRes
    let _ ← env.saveRes
    return sysMsg name "Screenshot captured and saved"

def viewScreenExecute (name : String) (env : ScreenshotEnv)
    (input : Option String) (tabName : Option String) (st : RegState) :
    List String :=
  mkReport name "Error taking screenshot: "
    (viewScreenBody name env input tabName st)

/-! ## BrowserSnapshotDomAction (browser_snapshot_dom) -/

/-- Source: `const limit = 100000; // Fixed limit of 100,000 characters`. -/
def snapshotLimit : Nat := 100000

/-- Source: `const truncated = html.length > limit ? html.slice(0, limit) : html;` —
the exact value handed to `updateLocationStateRendering`. -/
def snapshotTruncate (html : List Char) : List Char :=
  if html.length > snapshotLimit then html.take snapshotLimit else html

/-- Source: `snapshotTruncate` on strings. -/
def snapshotStored (html : String) : String :=
  (snapshotTruncate html.data).asString

/-- In-page filter `containsSearchTerm(element, term)`, applied to the
element's `textContent` (`null` coalesced to `''` by the source).  An empty
term keeps everything; otherwise the lowercased text must contain the
lowercased term or `'#' +` the lowercased term. -/
def containsSearchTerm (textContent term : String) : Bool :=
  if term = "" then true
  else
    let text := String.mk (textContent.data.map Char.toLower)
    let termLower := String.mk (term.data.map Char.toLower)
    let hashtagTerm := "#" ++ termLower
    strIncludes text termLower || strIncludes text hashtagTerm

/-- Case-insensitive string containment, for the specification-side filter. -/
def ciContainsStr (hay needle : String) : Bool :=
  includesL (needle.data.map Char.toLower) (hay.data.map Char.toLower)

/-- The filter exactly as the specification words it: keep an element iff
its text content contains the term case-insensitively, or contains the term
prefixed with a hash mark, again case-insensitively; keep everything when no
term is supplied. -/
def keepSpec (textContent term : String) : Bool :=
  if term = "" then true
  else
    ciContainsStr textContent term || ciContainsStr textContent ("#" ++ term)

structure SnapshotEnv where
  /-- the `page.evaluate` storing `__snapshot_opts`. -/
  setOptsRes : Except String Unit
  /-- `page.$$eval('body', els => els.length)`. -/
  countRes : Except String Nat
  /-- the extraction `page.$$eval` producing the raw concatenated markup. -/
  htmlRes : Except String String
  /-- `updateLocationStateRendering` (external rendering sink). -/
  saveRes : Except String Unit
  deriving Repr

def snapshotDomBody (name : String) (env : SnapshotEnv)
    (searchTerm : Option String) (tabName : Option String) (st : RegState) :
    Except String String := do
  match getChromePage tabName st with
  | none => throw "Browser not launched. Please run launch_browser first."
  | some _ =>
    let _ := searchTerm.getD ""
    let _ ← env.setOptsRes
    let count ← env.countRes
    if count = 0 then
      return sysMsg name "No elements found matching selector: body"
    let html ← env.htmlRes
    let _ := snapshotStored html
    let _ ← env.saveRes
    return sysMsg name "DOM snapshot captured and saved to location rendering"

def snapshotDomExecute (name : String) (env : SnapshotEnv)
    (searchTerm : Option String) (tabName : Option String) (st : RegState) :
    List String :=
  mkReport name "Error capturing DOM snapshot: "
    (snapshotDomBody name env searchTerm tabName st)

/-! ## Tab-management actions (launch/close/create/switch/close-tab/list) -/

/-- The try/catch boundary of the tab-management actions: a normal registry
return is reported with the action's success line, a thrown error with its
error line; nothing is rethrown. -/
def mkReportU (name okMsg errPre : String) (r : Except String Unit) :
    List String :=
  match r with
  | .ok _ => [sysMsg name okMsg]
  | .error e => [sysMsg name (errPre ++ e)]

/-- Source: `ChromeLaunchAction.execute`: the `headless` flag is accepted but unused
(the launcher is always visible). -/
def chromeLaunchExecute (name : String) (env : LaunchEnv)
    (headless : Option Bool) (url tabName : Option String) (st : RegState) :
    RegState × List String :=
  let _ := headless
  let r := launchChromeBrowser env url tabName st
  let okMsg := "Successfully launched Chrome browser in visible mode for supervision." ++
    (if jsTruthyStr url then " Navigated to: " ++ url.getD "" else "") ++
    (if jsTruthyStr tabName then " Created tab: " ++ tabName.getD "" else "")
  (r.st, mkReportU name okMsg "Error launching Chrome: " r.res)

/-- Source: `ChromeCloseAction.execute`: returns the final registry, the reporting
sink lines, and the console lines printed by `closeChromeBrowser`. -/
def chromeCloseExecute (name : String) (env : CloseEnv) (st : RegState) :
    RegState × List String × List String :=
  let r := closeChromeBrowser env st
  (r.st,
    mkReportU name "Successfully closed Chrome browser"
      "Error closing browser: " r.res,
    r.console)

def createTabExecute (name : String) (env : CreateTabEnv) (tabName : String)
    (url : Option String) (st : RegState) : RegState × List String :=
  let r := createNewTab env tabName url st
  let okMsg := "Successfully created new tab: " ++ tabName ++
    (if jsTruthyStr url then " and navigated to: " ++ url.getD "" else "")
  (r.st, mkReportU name okMsg "Error creating tab: " r.res)

def switchTabExecute (name : String) (env : SwitchTabEnv) (tabName : String)
    (st : RegState) : RegState × List String :=
  let r := switchToTab env tabName st
  (r.st,
    mkReportU name ("Successfully switched to tab: " ++ tabName)
      "Error switching tab: " r.res)

def closeTabExecute (name : String) (env : CloseTabEnv) (tabName : String)
    (st : RegState) : RegState × List String :=
  let r := closeTab env tabName st
  (r.st,
    mkReportU name ("Successfully closed tab: " ++ tabName)
      "Error closing tab: " r.res)

def listTabsExecute (name : String) (st : RegState) : List String :=
  let tabNames := getChromePageNames st
  if tabNames.isEmpty then
    [sysMsg name "No tabs are currently open."]
  else
    [sysMsg name ("Currently open tabs: " ++ String.intercalate ", " tabNames)]

/-! ## cleanHtml: the in-page sanitizer regex chain

`String.prototype.replace(pattern, repl)` with the `g` flag scans left to
right: at each position it tries the pattern, on a match emits the
replacement and resumes after the matched span, otherwise emits the
character and moves one position on.  Every pattern in the chain matches at
least one character.  Each pattern below is deterministic (its backtracking
never changes the chosen span), so it is rendered as a direct matcher
returning the replacement and the number of characters consumed. -/

/-- One global-replace pass, fuelled by the input length (each match
consumes at least one character, so the fuel never runs out). -/
def jsReplaceF (m : List Char → Option (List Char × Nat)) :
    Nat → List Char → List Char
  | _, [] => []
  | 0, l => l
  | fuel + 1, c :: cs =>
    match m (c :: cs) with
    | some (rep, n) => rep ++ jsReplaceF m fuel (cs.drop (n - 1))
    | none => c :: jsReplaceF m fuel cs

def jsReplace (m : List Char → Option (List Char × Nat)) (l : List Char) :
    List Char :=
  jsReplaceF m l.length l

/-- Case folding used by the `i` regex flag (ASCII, which covers every
letter the sanitizer's patterns contain). -/
def ciEq (a b : Char) : Bool :=
  a.toLower == b.toLower

/-- Does `l` start with `pat` (case-insensitively when `ci`)? -/
def matchLit (ci : Bool) : List Char → List Char → Bool
  | [], _ => true
  | _ :: _, [] => false
  | p :: ps, c :: cs => (if ci then ciEq p c else p == c) && matchLit ci ps cs

/-- Lazy scan `[\s\S]*?pat` (or `.*?pat` under the `s` flag): characters
consumed up to and including the first occurrence of `pat`. -/
def findLazy (ci : Bool) (pat : List Char) : List Char → Option Nat
  | [] => if matchLit ci pat [] then some pat.length else none
  | c :: t =>
    if matchLit ci pat (c :: t) then some pat.length
    else (findLazy ci pat t).map (fun n => n + 1)

/-- Lazy scan `[^>]*?pat`: like `findLazy` but the skipped run may not
contain `'>'`; returns the number of skipped characters. -/
def findLazyNoGt (pat : List Char) : List Char → Option Nat
  | [] => if matchLit true pat [] then some 0 else none
  | c :: t =>
    if matchLit true pat (c :: t) then some 0
    else if c == '>' then none
    else (findLazyNoGt pat t).map (fun n => n + 1)

/-- Length of the greedy run of a character class. -/
def countWhile (p : Char → Bool) (l : List Char) : Nat :=
  (l.takeWhile p).length

/-- The JS regex `\s` class (also the set `String.prototype.trim` strips). -/
def isJsWs (c : Char) : Bool :=
  let n := c.toNat
  n == 9 || n == 10 || n == 11 || n == 12 || n == 13 || n == 32 ||
  n == 160 || n == 5760 || (decide (8192 ≤ n) && decide (n ≤ 8202)) ||
  n == 8232 || n == 8233 || n == 8239 || n == 8287 || n == 12288 ||
  n == 65279

/-- The class `[A-Za-z0-9+/=\s]` of the base64-payload patterns. -/
def isB64 (c : Char) : Bool :=
  c.isAlphanum || c == '+' || c == '/' || c == '=' || isJsWs c

/-- Source: `<tag[^>]*>[\s\S]*?<\/tag>` (flags `gi`, or `gis` with `.` for the body):
used for `script`, `style`, `noscript`, `svg`, and each alternative of the
`nav|footer|header` rule. -/
def mBlockTag (tag : List Char) (l : List Char) : Option (List Char × Nat) :=
  if matchLit true ('<' :: tag) l then
    let r1 := l.drop (tag.length + 1)
    let a := countWhile (fun c => c != '>') r1
    match r1.drop a with
    | '>' :: r3 =>
      match findLazy true ('<' :: '/' :: (tag ++ ['>'])) r3 with
      | some n2 => some ([], tag.length + 1 + a + 1 + n2)
      | none => none
    | _ => none
  else none

/-- Source: `<tag[^>]*>` (flag `gi`): used for `link`. -/
def mOpenTag (tag : List Char) (l : List Char) : Option (List Char × Nat) :=
  if matchLit true ('<' :: tag) l then
    let r1 := l.drop (tag.length + 1)
    let a := countWhile (fun c => c != '>') r1
    match r1.drop a with
    | '>' :: _ => some ([], tag.length + 1 + a + 1)
    | _ => none
  else none

/-- Source: `<!--[\s\S]*?-->` (flag `g`). -/
def mComment (l : List Char) : Option (List Char × Nat) :=
  if matchLit false "<!--".data l then
    match findLazy false "-->".data (l.drop 4) with
    | some n2 => some ([], 4 + n2)
    | none => none
  else none

/-- Source: `pre[^;]+;base64,[A-Za-z0-9+/=\s]+` (flag `g`): the data-URI removals,
with `pre` one of `data:image/`, `data:video/`, `data:audio/`,
`data:text/javascript`, `data:text/css`, or the catch-all `data:`. -/
def mDataUri (pre : List Char) (l : List Char) : Option (List Char × Nat) :=
  if matchLit false pre l then
    let r1 := l.drop pre.length
    let a := countWhile (fun c => c != ';') r1
    if a == 0 then none
    else if matchLit false ";base64,".data (r1.drop a) then
      let b := countWhile isB64 (r1.drop (a + 8))
      if b == 0 then none else some ([], pre.length + a + 8 + b)
    else none
  else none

/-- Source: `charset=utf-8;base64,[A-Za-z0-9+/=\s]+` (flag `g`). -/
def mCharset (l : List Char) : Option (List Char × Nat) :=
  let pre := "charset=utf-8;base64,".data
  if matchLit false pre l then
    let b := countWhile isB64 (l.drop pre.length)
    if b == 0 then none else some ([], pre.length + b)
  else none

/-- Source: `\s*name="[^"]*"` (flags `gi`): the `src`, `srcset`, `class` and
`style` attribute removals. -/
def mAttr (attr : List Char) (l : List Char) : Option (List Char × Nat) :=
  let w := countWhile isJsWs l
  let r1 := l.drop w
  if matchLit true (attr ++ ('=' :: ['"'])) r1 then
    let r2 := r1.drop (attr.length + 2)
    let v := countWhile (fun c => c != '"') r2
    match r2.drop v with
    | '"' :: _ => some ([], w + attr.length + 2 + v + 1)
    | _ => none
  else none

/-- The `="[^"]*"` tail shared by the attribute alternation; returns the
characters it consumes. -/
def mQuotedVal (l : List Char) : Option Nat :=
  if matchLit false "=\"".data l then
    let v := countWhile (fun c => c != '"') (l.drop 2)
    match (l.drop 2).drop v with
    | '"' :: _ => some (2 + v + 1)
    | _ => none
  else none

/-- One fixed-name alternative of the attribute alternation. -/
def mAltName (nm : List Char) (l : List Char) : Option Nat :=
  if matchLit true nm l then
    (mQuotedVal (l.drop nm.length)).map (fun k => nm.length + k)
  else none

/-- The `data-[^=]*` alternative. -/
def mDataAttr (l : List Char) : Option Nat :=
  if matchLit true "data-".data l then
    let d := countWhile (fun c => c != '=') (l.drop 5)
    (mQuotedVal (l.drop (5 + d))).map (fun k => 5 + d + k)
  else none

/-- Source: `\s*(role|tabindex|aria-label|aria-hidden|aria-describedby|data-[^=]*|crossorigin|nonce|async|defer)="[^"]*"`
(flags `gi`), alternatives tried in source order. -/
def mOtherAttrs (l : List Char) : Option (List Char × Nat) :=
  let w := countWhile isJsWs l
  let r := l.drop w
  let alt :=
    (mAltName "role".data r) <|> (mAltName "tabindex".data r) <|>
    (mAltName "aria-label".data r) <|> (mAltName "aria-hidden".data r) <|>
    (mAltName "aria-describedby".data r) <|> (mDataAttr r) <|>
    (mAltName "crossorigin".data r) <|> (mAltName "nonce".data r) <|>
    (mAltName "async".data r) <|> (mAltName "defer".data r)
  alt.map (fun k => ([], w + k))

/-- Source: `<a([^>]*?)href="([^"]*)"([^>]*?)>` (flags `gi`), replaced by
`` `<a href="${href}">` ``. -/
def mAnchor (l : List Char) : Option (List Char × Nat) :=
  if matchLit true "<a".data l then
    let r1 := l.drop 2
    match findLazyNoGt "href=\"".data r1 with
    | none => none
    | some k =>
      let r2 := r1.drop (k + 6)
      let v := r2.takeWhile (fun c => c != '"')
      match r2.drop v.length with
      | '"' :: r4 =>
        let j := countWhile (fun c => c != '>') r4
        match r4.drop j with
        | '>' :: _ =>
          some ("<a href=\"".data ++ v ++ "\">".data,
            2 + k + 6 + v.length + 1 + j + 1)
        | _ => none
      | _ => none
  else none

/-- Source: `<(nav|footer|header)[^>]*>.*?<\/\1>` (flags `gis`). -/
def mNavFooterHeader (l : List Char) : Option (List Char × Nat) :=
  mBlockTag "nav".data l <|> mBlockTag "footer".data l <|>
    mBlockTag "header".data l

def chromeKeywords : List (List Char) :=
  ["navigation".data, "nav".data, "footer".data, "header".data,
   "sidebar".data, "menu".data, "toolbar".data, "breadcrumb".data]

/-- Case-insensitive containment, for the keyword scan of the chrome-like
rule. -/
def containsCI (needle hay : List Char) : Bool :=
  includesL (needle.map Char.toLower) (hay.map Char.toLower)

/-- Source: `<[^>]*(?:navigation|nav|footer|header|sidebar|menu|toolbar|breadcrumb)[^>]*>.*?<\/[^>]*>`
(flags `gis`): an opening tag whose pre-`>` text contains a chrome-like
keyword, everything up to the first closing-tag shape `</...>`. -/
def mChromeLike (l : List Char) : Option (List Char × Nat) :=
  match l with
  | '<' :: r1 =>
    let seg := r1.takeWhile (fun c => c != '>')
    match r1.drop seg.length with
    | '>' :: r2 =>
      if chromeKeywords.any (fun kw => containsCI kw seg) then
        match findLazy false "</".data r2 with
        | some n2 =>
          let r3 := r2.drop n2
          let j := countWhile (fun c => c != '>') r3
          match r3.drop j with
          | '>' :: _ => some ([], 1 + seg.length + 1 + n2 + j + 1)
          | _ => none
        | none => none
      else none
    | _ => none
  | _ => none

/-- One alternative of `<(div|span)[^>]*>\s*<\/\1>` (flags `gi`). -/
def mEmptyPair (tag : List Char) (l : List Char) : Option (List Char × Nat) :=
  if matchLit true ('<' :: tag) l then
    let r1 := l.drop (tag.length + 1)
    let a := countWhile (fun c => c != '>') r1
    match r1.drop a with
    | '>' :: r2 =>
      let w := countWhile isJsWs r2
      if matchLit true (('<' :: '/' :: tag) ++ ['>']) (r2.drop w) then
        some ([], tag.length + 1 + a + 1 + w + tag.length + 3)
      else none
    | _ => none
  else none

def mEmptyDivSpan (l : List Char) : Option (List Char × Nat) :=
  mEmptyPair "div".data l <|> mEmptyPair "span".data l

/-- Source: `\s+` replaced by a single space (flag `g`). -/
def mWsRun (l : List Char) : Option (List Char × Nat) :=
  match l with
  | c :: _ => if isJsWs c then some ([' '], countWhile isJsWs l) else none
  | [] => none

/-- JS `String.prototype.trim`. -/
def jsTrim (l : List Char) : List Char :=
  ((l.dropWhile isJsWs).reverse.dropWhile isJsWs).reverse

/-- Source: `cleanHtml(html)`: the full removal chain, in source order. -/
def cleanHtmlL (h0 : List Char) : List Char :=
  let h := jsReplace (mBlockTag "script".data) h0
  let h := jsReplace (mBlockTag "style".data) h
  let h := jsReplace (mOpenTag "link".data) h
  let h := jsReplace (mBlockTag "noscript".data) h
  let h := jsReplace mComment h
  let h := jsReplace (mDataUri "data:image/".data) h
  let h := jsReplace (mDataUri "data:video/".data) h
  let h := jsReplace (mDataUri "data:audio/".data) h
  let h := jsReplace (mDataUri "data:text/javascript".data) h
  let h := jsReplace (mDataUri "data:text/css".data) h
  let h := jsReplace (mDataUri "data:".data) h
  let h := jsReplace mCharset h
  let h := jsReplace (mAttr "src".data) h
  let h := jsReplace (mAttr "srcset".data) h
  let h := jsReplace mAnchor h
  let h := jsReplace (mAttr "class".data) h
  let h := jsReplace (mAttr "style".data) h
  let h := jsReplace mOtherAttrs h
  let h := jsReplace (mBlockTag "svg".data) h
  let h := jsReplace mNavFooterHeader h
  let h := jsReplace mChromeLike h
  let h := jsReplace mEmptyDivSpan h
  let h := jsReplace mWsRun h
  jsTrim h

def cleanHtml (s : String) : String :=
  (cleanHtmlL s.data).asString

/-- Number of registry entries carrying a given name. -/
def countKey (k : String) (l : List (String × Nat)) : Nat :=
  (l.filter (fun p => p.1 == k)).length

/-- The reachable-state invariant of the registry: a null browser handle
means an empty tab registry. -/
def RegInv (st : RegState) : Prop :=
  st.browser = none → st.pages = []

/-! # Claims -/

/-- C10: `const waitTime = action.milliseconds || 3000;` coerces the falsy
value `0` to the 3000 ms default, so a request for a 0 ms wait behaves like
an omitted duration, and no argument can make the used wait time zero. -/
theorem waitTime_zero_coerced :
    jsWaitTime (some 0) = jsWaitTime none ∧
    jsWaitTime none = 3000 ∧
    ∀ ms : Option Int, jsWaitTime ms ≠ 0 := by
  refine ⟨rfl, rfl, ?_⟩
  intro ms
  match ms with
  | none => simp [jsWaitTime]
  | some m =>
    simp only [jsWaitTime]
    by_cases h : m = 0 <;> simp [h]

/-- C5: the extraction filter `containsSearchTerm` agrees with the
specification's wording `keepSpec` on every element text and search term:
with no (empty) term everything is kept, and otherwise an element is kept
iff its lowercased text contains the lowercased term or the lowercased term
preceded by `'#'`. -/
theorem containsSearchTerm_matches_spec (textContent term : String) :
    containsSearchTerm textContent term = keepSpec textContent term := by
  unfold containsSearchTerm keepSpec ciContainsStr strIncludes
  by_cases h : term = ""
  · simp [h]
  · simp only [h, if_false]
    have hmk : ∀ l : List Char, (String.mk l).data = l := fun _ => rfl
    have hhash : ("#" ++ term).data = '#' :: term.data := by
      simp [String.data_append]
    have hlow : Char.toLower '#' = '#' := rfl
    simp [hmk, hhash, String.data_append, hlow]

set_option maxRecDepth 40000 in
/-- C6 counterexample: `cleanHtml` is not idempotent.  Removing the inner
`<script></script>` from `<scr<script></script>ipt>x</script>` splices the
surrounding text into a fresh `<script>x</script>` block, which only a
second pass removes. -/
theorem cleanHtml_not_idempotent_cex :
    cleanHtml (cleanHtml "<scr<script></script>ipt>x</script>") ≠
      cleanHtml "<scr<script></script>ipt>x</script>" ∧
    cleanHtml "<scr<script></script>ipt>x</script>" = "<script>x</script>" ∧
    cleanHtml (cleanHtml "<scr<script></script>ipt>x</script>") = "" := by
  refine ⟨?_, ?_, ?_⟩ <;> decide

/-- C6 amended: sanitization is not idempotent in general (a removal can
reassemble a removable fragment that triggers on the next pass); resanitizing
is a no-op exactly on the sanitizer's fixed points, i.e. once a pass no
longer changes the markup, further passes never do. -/
theorem cleanHtml_idempotent_on_fixed_points (s : String)
    (h : cleanHtml s = s) : cleanHtml (cleanHtml s) = cleanHtml s := by
  rw [h]
  exact h

set_option maxRecDepth 40000 in
/-- Witness for `cleanHtml_idempotent_on_fixed_points` at the concrete fixed
point `"x"`. -/
theorem cleanHtml_fixed_point_witness :
    cleanHtml (cleanHtml "x") = cleanHtml "x" :=
  cleanHtml_idempotent_on_fixed_points "x" (by decide)

/-- C8: on a page of fixed finite scroll height the scroll-to-bottom loop
terminates (it is a total function, returning its tick count), and the
position where it stops is the page's maximum scroll extent
`scrollHeight - clientHeight` itself — in particular within the 10 px
tolerance of it. -/
theorem scrollToBottom_reaches_bottom (scrollHeight clientHeight pos : Nat) :
    (scrollToBottomLoop scrollHeight clientHeight pos).1 =
      scrollHeight - clientHeight ∧
    (scrollHeight - clientHeight) -
      (scrollToBottomLoop scrollHeight clientHeight pos).1 ≤ 10 := by
  have h : (scrollToBottomLoop scrollHeight clientHeight pos).1 =
      scrollHeight - clientHeight := by
    induction pos using scrollToBottomLoop.induct scrollHeight clientHeight with
    | case1 p hdone =>
      have hd := hdone
      simp only [scrollDone, decide_eq_true_eq] at hd
      rw [scrollToBottomLoop.eq_def]
      simp [hdone, scrollStep]
      omega
    | case2 p pos2 hdone ih =>
      rw [scrollToBottomLoop.eq_def]
      simp [hdone]
      exact ih
  exact ⟨h, by omega⟩

/-- C2 counterexample: the snapshot pipeline stores only the (possibly
truncated) string; no truncation flag exists.  An over-cap input and an
at-cap input produce identical stored results, so the stored result cannot
be "flagged as truncated" in one case and "unflagged" in the other. -/
theorem snapshot_no_flag_cex :
    snapshotTruncate (List.replicate 100001 'a') =
      snapshotTruncate (List.replicate 100000 'a') ∧
    (List.replicate 100001 'a').length > snapshotLimit ∧
    ¬ (List.replicate 100000 'a').length > snapshotLimit := by
  refine ⟨?_, ?_, ?_⟩
  · unfold snapshotTruncate snapshotLimit
    rw [List.length_replicate, List.length_replicate,
      if_pos (show 100001 > 100000 by omega),
      if_neg (show ¬ 100000 > 100000 by omega), List.take_replicate]
    congr 1
  · rw [List.length_replicate]
    unfold snapshotLimit
    omega
  · rw [List.length_replicate]
    unfold snapshotLimit
    omega

/-- C2 amended: an over-cap snapshot is truncated to exactly the
100,000-character cap (an initial segment of the sanitized markup of exactly cap
length) and an at-or-under-cap snapshot is stored unmodified; however no
truncation flag is recorded anywhere — the sink receives only the string. -/
theorem snapshot_truncation_amended (html : List Char) :
    (html.length > snapshotLimit →
      snapshotTruncate html = html.take snapshotLimit ∧
      (snapshotTruncate html).length = snapshotLimit) ∧
    (html.length ≤ snapshotLimit → snapshotTruncate html = html) := by
  constructor
  · intro h
    refine ⟨by simp [snapshotTruncate, h], ?_⟩
    simp [snapshotTruncate, h, List.length_take]
    omega
  · intro h
    unfold snapshotTruncate
    rw [if_neg (by omega)]

/-! ## Registry lemmas -/

theorem mapSet_of_absent (k : String) (v : Nat) :
    ∀ l : List (String × Nat), mapGet k l = none →
      mapSet k v l = l ++ [(k, v)] := by
  intro l
  induction l with
  | nil => intro _; rfl
  | cons hd t ih =>
    intro h
    obtain ⟨k', v'⟩ := hd
    by_cases hk : k' = k
    · simp [mapGet, hk] at h
    · simp [mapGet, hk] at h
      simp [mapSet, hk]
      exact ih h

theorem countKey_absent (k : String) :
    ∀ l : List (String × Nat), mapGet k l = none → countKey k l = 0 := by
  intro l
  induction l with
  | nil => intro _; rfl
  | cons hd t ih =>
    intro h
    obtain ⟨k', v'⟩ := hd
    by_cases hk : k' = k
    · simp [mapGet, hk] at h
    · simp [mapGet, hk] at h
      have h2 := ih h
      unfold countKey at h2 ⊢
      rw [List.filter_cons]
      simpa [hk] using h2

theorem mapGet_append_isSome (k : String) :
    ∀ l1 l2 : List (String × Nat), (mapGet k l1).isSome →
      mapGet k (l1 ++ l2) = mapGet k l1 := by
  intro l1
  induction l1 with
  | nil => intro l2 h; simp [mapGet] at h
  | cons hd t ih =>
    intro l2 h
    obtain ⟨k', v'⟩ := hd
    by_cases hk : k' = k
    · simp [mapGet, hk]
    · simp [mapGet, hk] at h ⊢
      exact ih l2 h

/-- Registering a fresh name appends it: afterwards exactly one entry bears
the name, and every previously registered name is still resolvable. -/
theorem mapSet_fresh_properties (k : String) (v : Nat)
    (l : List (String × Nat)) (h : mapGet k l = none) :
    countKey k (mapSet k v l) = 1 ∧
    ∀ m, (mapGet m l).isSome → (mapGet m (mapSet k v l)).isSome := by
  rw [mapSet_of_absent k v l h]
  constructor
  · simp [countKey, List.filter_append]
    have h0 := countKey_absent k l h
    simpa [countKey] using h0
  · intro m hm
    rw [mapGet_append_isSome m l [(k, v)] hm]
    exact hm

theorem launchAfterClose_cases (env : LaunchEnv) (u tn : String)
    (st : RegState) :
    (launchAfterClose env u tn st).st = st ∨
    ∃ b, (launchAfterClose env u tn st).st.browser = some b := by
  unfold launchAfterClose
  by_cases hcf : env.chromeFound
  · simp only [hcf, not_true, if_false]
    cases env.launchRes with
    | error e => left; rfl
    | ok b =>
      cases env.newPageRes with
      | error e => right; exact ⟨b, rfl⟩
      | ok p =>
        by_cases hu : u = ""
        · simp only [hu, ne_eq, not_true, if_false]
          right; exact ⟨b, rfl⟩
        · simp only [ne_eq, hu, not_false_eq_true, if_true]
          cases env.gotoRes with
          | error e => right; exact ⟨b, rfl⟩
          | ok _ => right; exact ⟨b, rfl⟩
  · simp only [hcf, not_false_eq_true, if_true]
    left; rfl

theorem launchAfterClose_inv (env : LaunchEnv) (u tn : String)
    (st : RegState) (h : RegInv st) :
    RegInv (launchAfterClose env u tn st).st := by
  rcases launchAfterClose_cases env u tn st with heq | ⟨b, hb⟩
  · rw [heq]; exact h
  · intro hnone
    rw [hnone] at hb
    cases hb

/-- C9: every mutating registry operation preserves the invariant "null
browser handle implies empty tab registry" (`getChromePage`, the remaining
listed operation, takes the state read-only by its type and cannot break
it). -/
theorem registry_invariant_preserved (envL : LaunchEnv) (envC : CloseEnv)
    (envT : CreateTabEnv) (envD : CloseTabEnv) (url tabName : Option String)
    (tn2 tn3 : String) (url2 : Option String) (st : RegState)
    (h : RegInv st) :
    RegInv (launchChromeBrowser envL url tabName st).st ∧
    RegInv (closeChromeBrowser envC st).st ∧
    RegInv (createNewTab envT tn2 url2 st).st ∧
    RegInv (closeTab envD tn3 st).st := by
  refine ⟨?_, ?_, ?_, ?_⟩
  · unfold launchChromeBrowser
    cases hb : st.browser with
    | none =>
      exact launchAfterClose_inv envL _ _ st h
    | some b =>
      cases envC' : envL.closeRes with
      | error e =>
        simp only
        intro hnone
        rw [hb] at hnone
        cases hnone
      | ok _ =>
        simp only
        exact launchAfterClose_inv envL _ _ ⟨none, []⟩ (fun _ => rfl)
  · unfold closeChromeBrowser
    cases hb : st.browser with
    | none => exact h
    | some b =>
      cases envC.closeRes with
      | error e =>
        intro hnone
        rw [hb] at hnone
        cases hnone
      | ok _ => intro _; rfl
  · unfold createNewTab
    repeat' split
    all_goals first
      | exact h
      | (intro hnone; simp_all)
  · unfold closeTab
    cases hg : mapGet tn3 st.pages with
    | none => exact h
    | some p =>
      cases envD.pageCloseRes with
      | error e => exact h
      | ok _ =>
        intro hnone
        simp only at hnone
        rw [h hnone]
        rfl

/-- Witness for `registry_invariant_preserved`: applied to a concrete live
session with one tab, the close operation leaves an empty registry. -/
theorem registry_invariant_witness :
    (closeChromeBrowser ⟨.ok ()⟩ ⟨some 5, [("a", 1)]⟩).st.pages = [] :=
  ((registry_invariant_preserved ⟨.ok (), true, .ok 1, .ok 2, .ok ()⟩
      ⟨.ok ()⟩ ⟨.ok 3, .ok ()⟩ ⟨.ok ()⟩ none none "t" "u" none
      ⟨some 5, [("a", 1)]⟩ (fun hc => nomatch hc)).2.1) rfl

/-- C4: `createNewTab` fails without mutating the registry when no session
exists or the name is already registered, and on success exactly one tab
bears the new name while every previously registered tab stays registered. -/
theorem createTab_state_safety (env : CreateTabEnv) (tabName : String)
    (url : Option String) (st : RegState) :
    (st.browser = none →
      isErr (createNewTab env tabName url st).res = true ∧
      (createNewTab env tabName url st).st = st) ∧
    (st.browser ≠ none → (mapGet tabName st.pages).isSome →
      isErr (createNewTab env tabName url st).res = true ∧
      (createNewTab env tabName url st).st = st) ∧
    ((createNewTab env tabName url st).res = .ok () →
      countKey tabName (createNewTab env tabName url st).st.pages = 1 ∧
      ∀ m, (mapGet m st.pages).isSome →
        (mapGet m (createNewTab env tabName url st).st.pages).isSome) := by
  refine ⟨?_, ?_, ?_⟩
  · intro hb
    simp [createNewTab, hb, isErr]
  · intro hb hdup
    obtain ⟨b, hb'⟩ := Option.ne_none_iff_exists'.mp hb
    obtain ⟨v, hv⟩ := Option.isSome_iff_exists.mp hdup
    simp [createNewTab, hb', hv, isErr]
  · intro hok
    cases hb : st.browser with
    | none => simp [createNewTab, hb] at hok
    | some b =>
      cases hg : mapGet tabName st.pages with
      | some v => simp [createNewTab, hb, hg] at hok
      | none =>
        cases hn : env.newPageRes with
        | error e => simp [createNewTab, hb, hg, hn] at hok
        | ok p =>
          have hres : (createNewTab env tabName url st).st =
              ⟨st.browser, mapSet tabName p st.pages⟩ := by
            cases url with
            | none => simp [createNewTab, hb, hg, hn]
            | some u =>
              by_cases hu : u = ""
              · simp [createNewTab, hb, hg, hn, hu]
              · cases hgo : env.gotoRes with
                | error e => simp [createNewTab, hb, hg, hn, hu, hgo]
                | ok _ => simp [createNewTab, hb, hg, hn, hu, hgo]
          rw [hres]
          exact mapSet_fresh_properties tabName p st.pages hg

/-- Witness for `createTab_state_safety` at concrete inputs: a duplicate
create leaves the one-tab registry untouched, and a fresh create into a
live session registers exactly one tab of that name. -/
theorem createTab_state_safety_witness :
    (createNewTab ⟨.ok 7, .ok ()⟩ "a" none ⟨some 1, [("a", 2)]⟩).st =
      ⟨some 1, [("a", 2)]⟩ ∧
    countKey "b"
      (createNewTab ⟨.ok 7, .ok ()⟩ "b" none ⟨some 1, [("a", 2)]⟩).st.pages = 1 :=
  ⟨((createTab_state_safety ⟨.ok 7, .ok ()⟩ "a" none
      ⟨some 1, [("a", 2)]⟩).2.1 (by decide) (by decide)).2,
   ((createTab_state_safety ⟨.ok 7, .ok ()⟩ "b" none
      ⟨some 1, [("a", 2)]⟩).2.2 (by decide)).1⟩

/-- C3 counterexample: a launch that fails at page creation (after the
engine itself started) leaves the fresh session registered — the global
browser handle is not null afterwards, contradicting "after the failure no
session is left registered". -/
theorem launch_failure_session_cex :
    isErr (launchChromeBrowser
      ⟨.ok (), true, .ok 1, .error "newPage failed", .ok ()⟩
      none none ⟨none, []⟩).res = true ∧
    (launchChromeBrowser
      ⟨.ok (), true, .ok 1, .error "newPage failed", .ok ()⟩
      none none ⟨none, []⟩).st.browser = some 1 := by
  decide

/-- C3 amended: only the failures that occur before the engine starts —
no Chrome executable found, or the engine refusing to launch — leave no
session registered (given a reachable starting state and a successful
teardown of any previous session); failures at page creation or initial
navigation leave the new session registered. -/
theorem launch_prelaunch_failure_clean (env : LaunchEnv)
    (url tabName : Option String) (st : RegState) (hinv : RegInv st)
    (hclose : env.closeRes = .ok ())
    (hpre : env.chromeFound = false ∨ isErr env.launchRes = true) :
    isErr (launchChromeBrowser env url tabName st).res = true ∧
    (launchChromeBrowser env url tabName st).st.browser = none ∧
    (launchChromeBrowser env url tabName st).st.pages = [] := by
  have hafter : ∀ u tn (st' : RegState), st'.browser = none →
      st'.pages = [] →
      isErr (launchAfterClose env u tn st').res = true ∧
      (launchAfterClose env u tn st').st.browser = none ∧
      (launchAfterClose env u tn st').st.pages = [] := by
    intro u tn st' hb' hp'
    unfold launchAfterClose
    rcases hpre with hcf | hlr
    · simp [hcf, isErr, hb', hp']
    · cases hl : env.launchRes with
      | ok b => rw [hl] at hlr; simp [isErr] at hlr
      | error e =>
        by_cases hcf : env.chromeFound
        · simp [hcf, hl, isErr, hb', hp']
        · simp [hcf, isErr, hb', hp']
  unfold launchChromeBrowser
  cases hb : st.browser with
  | none => exact hafter _ _ st hb (hinv hb)
  | some b =>
    rw [hclose]
    exact hafter _ _ ⟨none, []⟩ rfl rfl

/-- Witness for `launch_prelaunch_failure_clean`: with no executable
present, launching from the empty state fails and registers nothing. -/
theorem launch_prelaunch_failure_witness :
    isErr (launchChromeBrowser ⟨.ok (), false, .ok 0, .ok 0, .ok ()⟩
      none none ⟨none, []⟩).res = true :=
  (launch_prelaunch_failure_clean ⟨.ok (), false, .ok 0, .ok 0, .ok ()⟩
    none none ⟨none, []⟩ (fun _ => rfl) rfl (Or.inl rfl)).1

/-- C7 counterexample: closing with no session raises no error, but the
no-instance-running notice goes to the console log; the reporting sink
receives the generic success line instead, so no sink line mentions the
missing instance. -/
theorem closeBrowser_report_cex :
    (chromeCloseExecute "Samo" ⟨.ok ()⟩ ⟨none, []⟩).2.1 =
      ["[Samo] Successfully closed Chrome browser"] ∧
    (chromeCloseExecute "Samo" ⟨.ok ()⟩ ⟨none, []⟩).2.2 =
      ["ℹNo browser instance was running"] ∧
    ((chromeCloseExecute "Samo" ⟨.ok ()⟩ ⟨none, []⟩).2.1.all
      (fun m => !(strIncludes m "No browser instance"))) = true := by
  refine ⟨rfl, rfl, ?_⟩
  decide

/-- C7 amended: with no session, `close_browser` is a no-op that raises no
error, prints the no-instance-running notice to the console, and reports
the generic success line to the reporting sink; with a live session whose
engine-level close succeeds, it releases the session and clears all tab
bindings. -/
theorem closeBrowser_amended (name : String) (env : CloseEnv)
    (st : RegState) :
    (st.browser = none →
      chromeCloseExecute name env st =
        (st, [sysMsg name "Successfully closed Chrome browser"],
          ["ℹNo browser instance was running"])) ∧
    (st.browser ≠ none → env.closeRes = .ok () →
      (chromeCloseExecute name env st).1 = ⟨none, []⟩ ∧
      (chromeCloseExecute name env st).2.1 =
        [sysMsg name "Successfully closed Chrome browser"]) := by
  constructor
  · intro hb
    simp [chromeCloseExecute, closeChromeBrowser, hb, mkReportU]
  · intro hb hc
    obtain ⟨b, hb'⟩ := Option.ne_none_iff_exists'.mp hb
    simp [chromeCloseExecute, closeChromeBrowser, hb', hc, mkReportU]

/-- Witness for `closeBrowser_amended` at concrete states with and without
a live session. -/
theorem closeBrowser_amended_witness :
    chromeCloseExecute "Samo" ⟨.ok ()⟩ ⟨none, []⟩ =
      (⟨none, []⟩, ["[Samo] Successfully closed Chrome browser"],
        ["ℹNo browser instance was running"]) ∧
    (chromeCloseExecute "Samo" ⟨.ok ()⟩ ⟨some 3, [("t", 1)]⟩).1 =
      ⟨none, []⟩ :=
  ⟨(closeBrowser_amended "Samo" ⟨.ok ()⟩ ⟨none, []⟩).1 rfl,
   ((closeBrowser_amended "Samo" ⟨.ok ()⟩
      ⟨some 3, [("t", 1)]⟩).2 (fun hc => nomatch hc) rfl).1⟩

/-- Witness for `snapshot_truncation_amended` on a concrete 100,001-character
input. -/
theorem snapshot_truncation_witness :
    snapshotTruncate (List.replicate 100001 'a') =
      List.replicate 100000 'a' := by
  have h := (snapshot_truncation_amended (List.replicate 100001 'a')).1
    (by rw [List.length_replicate]; unfold snapshotLimit; omega)
  rw [h.1]
  unfold snapshotLimit
  rw [List.take_replicate]
  congr 1

/-! ## Dispatcher reporting discipline -/

theorem mkReport_length (name errPre : String) (r : Except String String) :
    (mkReport name errPre r).length = 1 := by
  cases r <;> rfl

theorem mkReportU_length (name okMsg errPre : String) (r : Except String Unit) :
    (mkReportU name okMsg errPre r).length = 1 := by
  cases r <;> rfl

/-- C1: every dispatcher action's `execute` — click, scroll, fixed wait,
navigate, wait-for-navigation, screenshot, DOM snapshot, and the
tab-management actions — is a total function of its inputs and of every
engine-call outcome (so it returns normally, rethrowing nothing), and it
pushes exactly one human-readable line to the reporting sink: the single
success or soft-outcome line on the normal path, the single error line when
any inner operation throws. -/
theorem dispatcher_single_report (name selector navUrl tn2 tn3 tn4 : String)
    (envClick : ClickEnv) (envScroll : ScrollEnv) (envNav : NavigateEnv)
    (envWaitNav : WaitNavEnv) (envShot : ScreenshotEnv)
    (envSnap : SnapshotEnv) (envLaunch : LaunchEnv) (envClose : CloseEnv)
    (envCreate : CreateTabEnv) (envSwitch : SwitchTabEnv)
    (envCloseTab : CloseTabEnv) (waitAfterMs pixels ms : Option Int)
    (direction : Option ScrollDir) (toBottom : Bool)
    (strategy input searchTerm tabName url : Option String)
    (headless : Option Bool) (st : RegState) :
    (browserClickExecute name envClick selector waitAfterMs tabName st).length = 1 ∧
    (browserScrollExecute name envScroll direction pixels toBottom waitAfterMs tabName st).length = 1 ∧
    (browserWaitExecute name ms).length = 1 ∧
    (browserNavigateExecute name envNav navUrl tabName st).length = 1 ∧
    (browserWaitNavExecute name envWaitNav strategy tabName st).length = 1 ∧
    (viewScreenExecute name envShot input tabName st).length = 1 ∧
    (snapshotDomExecute name envSnap searchTerm tabName st).length = 1 ∧
    ((chromeLaunchExecute name envLaunch headless url tabName st).2).length = 1 ∧
    ((chromeCloseExecute name envClose st).2.1).length = 1 ∧
    ((createTabExecute name envCreate tn2 url st).2).length = 1 ∧
    ((switchTabExecute name envSwitch tn3 st).2).length = 1 ∧
    ((closeTabExecute name envCloseTab tn4 st).2).length = 1 ∧
    (listTabsExecute name st).length = 1 := by
  refine ⟨mkReport_length _ _ _, mkReport_length _ _ _, mkReport_length _ _ _,
    mkReport_length _ _ _, mkReport_length _ _ _, mkReport_length _ _ _,
    mkReport_length _ _ _, mkReportU_length _ _ _ _, mkReportU_length _ _ _ _,
    mkReportU_length _ _ _ _, mkReportU_length _ _ _ _,
    mkReportU_length _ _ _ _, ?_⟩
  unfold listTabsExecute
  by_cases hne : (getChromePageNames st).isEmpty <;> simp [hne]
